import Mathlib

/-!
Verification of EduTutor-AI: a shallow embedding of the quiz-generation,
quiz-evaluation and session-management code, with theorems settling the
specification claims.

Sources embedded:
  * `src/services/ai_service.py` — `AIService._validate_quiz_structure`,
    `AIService._parse_generated_quiz`, `AIService._generate_enhanced_quiz`,
    `AIService._create_generic_questions`, `AIService.evaluate_quiz_answers`.
  * `src/utils/session_manager.py` — `SessionManager.register_user`,
    `SessionManager.login_user`, `SessionManager.get_current_user`,
    `SessionManager.get_user_quiz_history`, `SessionManager.get_user_stats`.

Conventions: Python `float` scores are modelled as exact rationals `ℚ`;
Python `dict`s are modelled as association lists with unique keys (lookup
takes the first match, as a Python dict would its unique one); Python
string indices are character-based, so raw model text is a `List Char`.
-/

namespace EduTutor

/-- A quiz question, as the dict built by `_generate_enhanced_quiz`:
keys `id`, `question`, `options`, `correct_answer`, `explanation`, `topic`.
`options` is a Python dict from option label to option text. -/
structure Question where
  id : Int
  question : String
  options : List (String × String)
  correct_answer : String
  explanation : String
  topic : String
deriving Repr, DecidableEq, Inhabited

/-- The quiz dict returned by `_generate_enhanced_quiz`:
keys `subject`, `difficulty`, `total_questions`, `questions`. -/
structure Quiz where
  subject : String
  difficulty : String
  total_questions : Nat
  questions : List Question
deriving Repr, DecidableEq

/-- A key of the Python `user_answers` dict.  Python allows keys of any
type; the code looks answers up under `str(question['id'])`, a string, and
an `int` key is never equal to a `str` key in Python. -/
inductive PyKey where
  | pstr (s : String)
  | pint (n : Int)
deriving Repr, DecidableEq

/-- One entry of `detailed_results` built by `evaluate_quiz_answers`. -/
structure DetailedResult where
  question_id : Int
  question : String
  user_answer : String
  correct_answer : String
  is_correct : Bool
  explanation : String
  topic : String
deriving Repr, DecidableEq

/-- The dict returned by `evaluate_quiz_answers`. -/
structure QuizResult where
  total_questions : Nat
  correct_answers : Nat
  score_percentage : ℚ
  performance_level : String
  feedback : String
  detailed_results : List DetailedResult
deriving Repr, DecidableEq

/-- `user_answers.get(question_id, '')` — dict lookup with default `''`. -/
def lookupAnswer (user_answers : List (PyKey × String)) (k : PyKey) : String :=
  match user_answers.lookup k with
  | some v => v
  | none => ""

/-- The body of the `for question in quiz_data['questions']` loop of
`evaluate_quiz_answers`: score one question against the answers dict. -/
def scoreQuestion (user_answers : List (PyKey × String)) (question : Question) :
    DetailedResult :=
  let question_id := toString question.id
  let user_answer := lookupAnswer user_answers (PyKey.pstr question_id)
  let correct_answer := question.correct_answer
  let is_correct := user_answer == correct_answer
  { question_id := question.id
    question := question.question
    user_answer := user_answer
    correct_answer := correct_answer
    is_correct := is_correct
    explanation := question.explanation
    topic := question.topic }

/-- `AIService.evaluate_quiz_answers` (src/services/ai_service.py:428).
The Python loop accumulates `correct_answers` and `detailed_results`; the
score is `(correct_answers / total_questions) * 100` (exact rationals here
in place of Python floats), and the performance level and feedback come
from the fixed `if/elif` threshold chain. -/
def evaluate_quiz_answers (quiz_data : Quiz) (user_answers : List (PyKey × String)) :
    QuizResult :=
  let total_questions := quiz_data.questions.length
  let detailed_results := quiz_data.questions.map (scoreQuestion user_answers)
  let correct_answers := (detailed_results.filter (fun r => r.is_correct)).length
  let score_percentage : ℚ := ((correct_answers : ℚ) / (total_questions : ℚ)) * 100
  let pf : String × String :=
    if score_percentage ≥ 90 then
      ("Excellent", "Outstanding performance! You have a strong understanding of the subject.")
    else if score_percentage ≥ 80 then
      ("Good", "Good job! You understand most concepts well with room for minor improvements.")
    else if score_percentage ≥ 70 then
      ("Satisfactory", "Decent performance. Focus on reviewing the topics you missed.")
    else if score_percentage ≥ 60 then
      ("Needs Improvement", "You\x27re getting there! Review the material and practice more.")
    else
      ("Poor", "Consider reviewing the fundamentals and taking practice quizzes.")
  { total_questions := total_questions
    correct_answers := correct_answers
    score_percentage := score_percentage
    performance_level := pf.1
    feedback := pf.2
    detailed_results := detailed_results }

/-! ### Fallback quiz generation (src/services/ai_service.py:198) -/

/-- An entry of the `enhanced_questions` bank: a question dict before the
`id` key is assigned by the selection loop. -/
structure BankQuestion where
  question : String
  options : List (String × String)
  correct_answer : String
  explanation : String
  topic : String
deriving Repr, DecidableEq

/-- `question = available_questions[i].copy(); question["id"] = i + 1`. -/
def BankQuestion.withId (q : BankQuestion) (id : Int) : Question :=
  { id := id
    question := q.question
    options := q.options
    correct_answer := q.correct_answer
    explanation := q.explanation
    topic := q.topic }

/-- `enhanced_questions["Programming Fundamentals"]["Easy"]`. -/
def programmingFundamentalsEasy : List BankQuestion :=
  [ { question := "What is a variable in programming?"
      options := [("A", "A function that performs calculations"),
                  ("B", "A storage location with an associated name"),
                  ("C", "A type of loop structure"),
                  ("D", "A debugging tool")]
      correct_answer := "B"
      explanation := "A variable is a storage location paired with an associated symbolic name that contains data, referred to as the variable\x27s value."
      topic := "Programming Concepts" },
    { question := "Which of the following is a programming language?"
      options := [("A", "HTML"), ("B", "CSS"), ("C", "Python"), ("D", "JSON")]
      correct_answer := "C"
      explanation := "Python is a high-level programming language. HTML and CSS are markup languages, while JSON is a data format."
      topic := "Programming Languages" },
    { question := "What is the purpose of comments in code?"
      options := [("A", "To make code run faster"),
                  ("B", "To explain what the code does"),
                  ("C", "To create variables"),
                  ("D", "To handle errors")]
      correct_answer := "B"
      explanation := "Comments are used to explain code functionality and make it more readable for other developers."
      topic := "Code Documentation" },
    { question := "What is debugging?"
      options := [("A", "Writing new code"),
                  ("B", "Deleting old code"),
                  ("C", "Finding and fixing errors in code"),
                  ("D", "Compiling code")]
      correct_answer := "C"
      explanation := "Debugging is the process of finding and resolving defects or problems within a computer program."
      topic := "Programming Process" },
    { question := "What does IDE stand for?"
      options := [("A", "Internet Development Environment"),
                  ("B", "Integrated Development Environment"),
                  ("C", "Internal Data Engine"),
                  ("D", "Interactive Design Editor")]
      correct_answer := "B"
      explanation := "IDE stands for Integrated Development Environment, a software application providing comprehensive facilities for software development."
      topic := "Development Tools" } ]

/-- `enhanced_questions["Programming Fundamentals"]["Medium"]`. -/
def programmingFundamentalsMedium : List BankQuestion :=
  [ { question := "What is the time complexity of binary search?"
      options := [("A", "O(n)"), ("B", "O(log n)"), ("C", "O(n²)"), ("D", "O(1)")]
      correct_answer := "B"
      explanation := "Binary search has O(log n) time complexity because it eliminates half of the remaining elements with each comparison."
      topic := "Algorithm Analysis" },
    { question := "What is recursion?"
      options := [("A", "A type of loop"),
                  ("B", "A function calling itself"),
                  ("C", "An error handling technique"),
                  ("D", "A data structure")]
      correct_answer := "B"
      explanation := "Recursion is a programming technique where a function calls itself to solve a smaller instance of the same problem."
      topic := "Programming Techniques" },
    { question := "What is object-oriented programming?"
      options := [("A", "Programming with objects and classes"),
                  ("B", "Programming only with functions"),
                  ("C", "A debugging technique"),
                  ("D", "A type of database")]
      correct_answer := "A"
      explanation := "Object-oriented programming is a programming paradigm based on the concept of objects, which contain data and code."
      topic := "Programming Paradigms" } ]

/-- `enhanced_questions["Machine Learning"]["Easy"]`. -/
def machineLearningEasy : List BankQuestion :=
  [ { question := "What is supervised learning?"
      options := [("A", "Learning without any data"),
                  ("B", "Learning with labeled training data"),
                  ("C", "Learning only from images"),
                  ("D", "Learning without algorithms")]
      correct_answer := "B"
      explanation := "Supervised learning uses labeled training data to learn a mapping from inputs to outputs."
      topic := "ML Fundamentals" },
    { question := "What does AI stand for?"
      options := [("A", "Automated Intelligence"),
                  ("B", "Artificial Intelligence"),
                  ("C", "Advanced Integration"),
                  ("D", "Algorithmic Implementation")]
      correct_answer := "B"
      explanation := "AI stands for Artificial Intelligence, which refers to the simulation of human intelligence in machines."
      topic := "AI Basics" } ]

/-- `enhanced_questions["Machine Learning"]["Medium"]`. -/
def machineLearningMedium : List BankQuestion :=
  [ { question := "What is overfitting in machine learning?"
      options := [("A", "When a model learns training data too well, including noise"),
                  ("B", "When a model has too few parameters"),
                  ("C", "When a model trains too slowly"),
                  ("D", "When a model uses too little data")]
      correct_answer := "A"
      explanation := "Overfitting occurs when a model learns the training data too well, including its noise and outliers, leading to poor generalization."
      topic := "Model Performance" },
    { question := "What is a neural network?"
      options := [("A", "A computer network"),
                  ("B", "A biological nervous system"),
                  ("C", "A computational model inspired by biological neural networks"),
                  ("D", "A type of database")]
      correct_answer := "C"
      explanation := "A neural network is a computational model inspired by biological neural networks that process information using interconnected nodes."
      topic := "Deep Learning" } ]

/-- `enhanced_questions["Mobile App Development"]["Easy"]`. -/
def mobileAppDevelopmentEasy : List BankQuestion :=
  [ { question := "What is Android Studio?"
      options := [("A", "A music editing app"),
                  ("B", "An integrated development environment for Android"),
                  ("C", "A mobile game"),
                  ("D", "A web browser")]
      correct_answer := "B"
      explanation := "Android Studio is the official IDE for Android application development."
      topic := "Development Tools" },
    { question := "Which programming language is primarily used for iOS development?"
      options := [("A", "Java"), ("B", "Python"), ("C", "Swift"), ("D", "C++")]
      correct_answer := "C"
      explanation := "Swift is Apple\x27s modern programming language designed for iOS, macOS, and other Apple platforms."
      topic := "iOS Development" } ]

/-- `enhanced_questions["Mobile App Development"]["Medium"]`. -/
def mobileAppDevelopmentMedium : List BankQuestion :=
  [ { question := "What is React Native?"
      options := [("A", "A web framework"),
                  ("B", "A cross-platform mobile development framework"),
                  ("C", "A database system"),
                  ("D", "A testing tool")]
      correct_answer := "B"
      explanation := "React Native is a framework that allows developers to build mobile applications for both iOS and Android using JavaScript and React."
      topic := "Cross-platform Development" },
    { question := "What is the purpose of an Android manifest file?"
      options := [("A", "Store user preferences"),
                  ("B", "Define app components and permissions"),
                  ("C", "Handle network requests"),
                  ("D", "Manage app themes")]
      correct_answer := "B"
      explanation := "The Android manifest file provides essential information about the app including its components, permissions, and capabilities."
      topic := "Android Architecture" } ]

/-- The built-in `enhanced_questions` bank: subject → difficulty → questions. -/
def enhanced_questions : List (String × List (String × List BankQuestion)) :=
  [("Programming Fundamentals",
     [("Easy", programmingFundamentalsEasy), ("Medium", programmingFundamentalsMedium)]),
   ("Machine Learning",
     [("Easy", machineLearningEasy), ("Medium", machineLearningMedium)]),
   ("Mobile App Development",
     [("Easy", mobileAppDevelopmentEasy), ("Medium", mobileAppDevelopmentMedium)])]

/-- `subject in enhanced_questions and difficulty in enhanced_questions[subject]`,
yielding `enhanced_questions[subject][difficulty]` when both keys exist. -/
def bankLookup (subject difficulty : String) : Option (List BankQuestion) :=
  match enhanced_questions.lookup subject with
  | none => none
  | some byDifficulty => byDifficulty.lookup difficulty

/-- `AIService._create_generic_questions` (src/services/ai_service.py:375). -/
def create_generic_questions (subject difficulty : String) (count : Nat) :
    List BankQuestion :=
  (List.range count).map (fun _ =>
    { question := "What is a fundamental concept in " ++ subject ++ "?"
      options := [("A", "Basic " ++ subject.toLower ++ " principle A"),
                  ("B", "Core " ++ subject.toLower ++ " concept"),
                  ("C", "Advanced " ++ subject.toLower ++ " theory"),
                  ("D", "Specialized " ++ subject.toLower ++ " application")]
      correct_answer := "B"
      explanation := "This question tests understanding of core " ++ subject.toLower ++
        " concepts at " ++ difficulty.toLower ++ " level."
      topic := subject ++ " Fundamentals" })

/-- The question appended by the `while len(selected_questions) < num_questions`
loop, where `n = len(selected_questions) + 1` at the time of the append. -/
def additionalQuestion (subject difficulty : String) (n : Nat) : Question :=
  { id := (n : Int)
    question := "Advanced " ++ subject.toLower ++ " concept question " ++ toString n
    options := [("A", "First approach to " ++ subject.toLower),
                ("B", "Correct approach to " ++ subject.toLower),
                ("C", "Alternative approach to " ++ subject.toLower),
                ("D", "Outdated approach to " ++ subject.toLower)]
    correct_answer := "B"
    explanation := "This represents current best practices in " ++ subject.toLower ++
      " at " ++ difficulty.toLower ++ " level."
    topic := subject ++ " Advanced Concepts" }

/-- `AIService._generate_enhanced_quiz` (src/services/ai_service.py:198).
The first `min num_questions available.length` bank questions get ids
`1, 2, …`; the `while` loop then pads with `additionalQuestion`s whose ids
continue the numbering until the list reaches `num_questions`. -/
def generate_enhanced_quiz (subject difficulty : String) (num_questions : Nat) : Quiz :=
  let available_questions :=
    match bankLookup subject difficulty with
    | some qs => qs
    | none => create_generic_questions subject difficulty num_questions
  let question_count := min num_questions available_questions.length
  let base := (available_questions.take question_count).mapIdx
      (fun i q => q.withId ((i : Int) + 1))
  let extra := (List.range' question_count (num_questions - question_count)).map
      (fun j => additionalQuestion subject difficulty (j + 1))
  let selected_questions := base ++ extra
  { subject := subject
    difficulty := difficulty
    total_questions := selected_questions.length
    questions := selected_questions }

/-! ### JSON values, validation and parsing (src/services/ai_service.py:140) -/

/-- A JSON value as produced by `json.loads`: objects are association
lists with (by JSON semantics) unique string keys, numbers are exact
rationals. -/
inductive JVal where
  | jnull
  | jbool (b : Bool)
  | jnum (q : ℚ)
  | jstr (s : String)
  | jarr (elements : List JVal)
  | jobj (fields : List (String × JVal))

/-- Dict lookup on a JSON object's field list. -/
def lookupField (fields : List (String × JVal)) (key : String) : Option JVal :=
  fields.lookup key

/-- The `required_fields` list of `_validate_quiz_structure`. -/
def requiredFields : List String :=
  ["subject", "difficulty", "total_questions", "questions"]

/-- The `required_q_fields` list of `_validate_quiz_structure`. -/
def requiredQFields : List String :=
  ["id", "question", "options", "correct_answer", "explanation", "topic"]

/-- The per-question checks of `_validate_quiz_structure`: all six keys
present, `options` a dict of size 4, and `correct_answer` a key of it.
A non-dict question, a non-dict `options`, or a non-string
`correct_answer` makes some check fail (or raise, caught as `False`). -/
def validQuestion (question : JVal) : Bool :=
  match question with
  | JVal.jobj qf =>
    requiredQFields.all (fun field => (lookupField qf field).isSome) &&
    (match lookupField qf "options" with
     | some (JVal.jobj opts) =>
       opts.length == 4 &&
       (match lookupField qf "correct_answer" with
        | some (JVal.jstr ca) => (opts.map Prod.fst).contains ca
        | _ => false)
     | _ => false)
  | _ => false

/-- `AIService._validate_quiz_structure` (src/services/ai_service.py:140).
Any `TypeError`/`KeyError` on a value of the wrong shape is caught by the
enclosing `try/except` and yields `False`, so only a dict with the four
keys, a numeric `total_questions` equal to `expected_questions`, and a
`questions` list of that length whose members pass `validQuestion`, can
validate. -/
def validate_quiz_structure (quiz_data : JVal) (expected_questions : Nat) : Bool :=
  match quiz_data with
  | JVal.jobj fields =>
    requiredFields.all (fun field => (lookupField fields field).isSome) &&
    (match lookupField fields "total_questions" with
     | some (JVal.jnum q) => q == (expected_questions : ℚ)
     | _ => false) &&
    (match lookupField fields "questions" with
     | some (JVal.jarr qs) =>
       qs.length == expected_questions && qs.all validQuestion
     | _ => false)
  | _ => false

/-- The JSON object a `Question` dict serializes to. -/
def questionToJVal (q : Question) : JVal :=
  JVal.jobj
    [("id", JVal.jnum (q.id : ℚ)),
     ("question", JVal.jstr q.question),
     ("options", JVal.jobj (q.options.map (fun p => (p.1, JVal.jstr p.2)))),
     ("correct_answer", JVal.jstr q.correct_answer),
     ("explanation", JVal.jstr q.explanation),
     ("topic", JVal.jstr q.topic)]

/-- The JSON object a `Quiz` dict serializes to. -/
def quizToJVal (qz : Quiz) : JVal :=
  JVal.jobj
    [("subject", JVal.jstr qz.subject),
     ("difficulty", JVal.jstr qz.difficulty),
     ("total_questions", JVal.jnum (qz.total_questions : ℚ)),
     ("questions", JVal.jarr (qz.questions.map questionToJVal))]

/-- `generated_text.find(c)`: index of the first occurrence, if any
(Python returns `-1` when absent). -/
def pyFindChar (cs : List Char) (c : Char) : Option Nat :=
  cs.findIdx? (fun x => x == c)

/-- `generated_text.rfind(c)`: index of the last occurrence, if any. -/
def pyRFindChar (cs : List Char) (c : Char) : Option Nat :=
  (cs.reverse.findIdx? (fun x => x == c)).map (fun i => cs.length - 1 - i)

/-- The extraction step of `_parse_generated_quiz`: slice from the first
brace to just past the last closing brace; `None` on the paths that raise
(`find` returns `-1`, or `end_idx <= start_idx`). -/
def extractJson (generated_text : List Char) : Option (List Char) :=
  match pyFindChar generated_text '\x7b' with
  | none => none
  | some start_idx =>
    match pyRFindChar generated_text '\x7d' with
    | none => none
    | some last =>
      let end_idx := last + 1
      if end_idx ≤ start_idx then none
      else some ((generated_text.drop start_idx).take (end_idx - start_idx))

/-- `AIService._parse_generated_quiz` (src/services/ai_service.py:173).
`loads` abstracts `json.loads` — an external parser that either returns a
JSON value or raises (`none`).  Every failure (no brace, bad slice, parse
error, failed validation) is caught and answered with the fallback quiz
from `_generate_enhanced_quiz`. -/
def parse_generated_quiz (loads : List Char → Option JVal)
    (generated_text : List Char) (subject difficulty : String)
    (num_questions : Nat) : JVal :=
  match extractJson generated_text with
  | none => quizToJVal (generate_enhanced_quiz subject difficulty num_questions)
  | some json_str =>
    match loads json_str with
    | none => quizToJVal (generate_enhanced_quiz subject difficulty num_questions)
    | some quiz_data =>
      if validate_quiz_structure quiz_data num_questions then quiz_data
      else quizToJVal (generate_enhanced_quiz subject difficulty num_questions)

/-- A hand-written sample question JSON object, used to exercise the
validator on concrete input. -/
def sampleQuestionJson : JVal :=
  JVal.jobj
    [("id", JVal.jnum 1),
     ("question", JVal.jstr "What is 2 + 2?"),
     ("options", JVal.jobj [("A", JVal.jstr "3"), ("B", JVal.jstr "4"),
                            ("C", JVal.jstr "5"), ("D", JVal.jstr "6")]),
     ("correct_answer", JVal.jstr "B"),
     ("explanation", JVal.jstr "Basic arithmetic."),
     ("topic", JVal.jstr "Arithmetic")]

/-- The field list of `sampleQuizJson`. -/
def sampleQuizFields : List (String × JVal) :=
  [("subject", JVal.jstr "Mathematics"),
   ("difficulty", JVal.jstr "Easy"),
   ("total_questions", JVal.jnum 1),
   ("questions", JVal.jarr [sampleQuestionJson])]

/-- A hand-written sample quiz JSON object that passes validation for one
question. -/
def sampleQuizJson : JVal := JVal.jobj sampleQuizFields

/-! ### Session manager (src/utils/session_manager.py) -/

/-- The per-user dict stored in `st.session_state.users[username]`:
`email`, plaintext `password`, `created_at` timestamp string. -/
structure UserData where
  email : String
  password : String
  created_at : String
deriving Repr, DecidableEq

/-- One record of `st.session_state.quiz_history[username]`, as built by
`SessionManager.save_quiz_result`. -/
structure QuizRecord where
  timestamp : String
  subject : String
  difficulty : String
  total_questions : Nat
  correct_answers : Nat
  score : ℚ
  performance_level : String
  detailed_results : List DetailedResult
deriving Repr, DecidableEq

/-- The Streamlit `st.session_state` fields the session manager touches. -/
structure SessionState where
  authenticated : Bool
  current_user : Option String
  users : List (String × UserData)
  quiz_history : List (String × List QuizRecord)
deriving Repr, DecidableEq

/-- Python `c in s` on a single-character needle: membership of the
character among the string's characters. -/
def pyInStr (c : Char) (s : String) : Bool := s.data.contains c

/-- Python `d[key] = val` on a dict: overwrite in place when the key is
present, append preserving insertion order when it is new. -/
def dictSet {β : Type} (l : List (String × β)) (key : String) (val : β) :
    List (String × β) :=
  if (l.lookup key).isSome then
    l.map (fun p => bif p.1 == key then (key, val) else p)
  else
    l ++ [(key, val)]

/-- `SessionManager.register_user` (src/utils/session_manager.py:22).
`now` stands for the `datetime.now()` timestamp string.  Returns the
`(success, message)` pair together with the updated session state. -/
def register_user (st : SessionState) (username email password now : String) :
    (Bool × String) × SessionState :=
  if (st.users.lookup username).isSome then
    ((false, "Username already exists"), st)
  else if username.length < 3 then
    ((false, "Username must be at least 3 characters long"), st)
  else if password.length < 6 then
    ((false, "Password must be at least 6 characters long"), st)
  else if ¬ (pyInStr '@' email) then
    ((false, "Please enter a valid email address"), st)
  else
    ((true, "Registration successful!"),
      { st with
        users := dictSet st.users username
          { email := email, password := password, created_at := now }
        quiz_history := dictSet st.quiz_history username [] })

/-- `SessionManager.login_user` (src/utils/session_manager.py:48). -/
def login_user (st : SessionState) (username password : String) :
    (Bool × String) × SessionState :=
  match st.users.lookup username with
  | none => ((false, "Username not found"), st)
  | some ud =>
    if ud.password ≠ password then
      ((false, "Incorrect password"), st)
    else
      ((true, "Login successful!"),
        { st with authenticated := true, current_user := some username })

/-- `SessionManager.get_current_user`: the current user when
authenticated, `None` otherwise. -/
def get_current_user (st : SessionState) : Option String :=
  if st.authenticated then st.current_user else none

/-- `SessionManager.get_user_quiz_history`: `[]` when not authenticated,
else `st.session_state.quiz_history.get(username, [])`.  When
`current_user` is `None` the Python `dict.get(None, [])` also yields `[]`
since all history keys are strings. -/
def get_user_quiz_history (st : SessionState) : List QuizRecord :=
  if ¬ st.authenticated then []
  else
    match get_current_user st with
    | none => []
    | some username => (st.quiz_history.lookup username).getD []

/-- A sample fresh session state: nobody registered, nobody logged in. -/
def emptyState : SessionState :=
  { authenticated := false, current_user := none, users := [], quiz_history := [] }

/-- A sample session state with one registered user "alice". -/
def regState : SessionState :=
  { authenticated := false
    current_user := none
    users := [("alice", { email := "a@b.c", password := "secret123", created_at := "t" })]
    quiz_history := [("alice", [])] }

/-- The dict returned by `SessionManager.get_user_stats`. -/
structure UserStats where
  total_quizzes : Nat
  average_score : ℚ
  best_score : ℚ
  favorite_subject : String
  improvement_trend : String
deriving Repr, DecidableEq

/-- Python `round` ties to the nearest even integer (banker\x27s rounding). -/
def roundHalfEven (q : ℚ) : Int :=
  let f : Int := ⌊q⌋
  if q - f < 1/2 then f
  else if 1/2 < q - f then f + 1
  else if 2 ∣ f then f else f + 1

/-- `round(x, 1)`: round to one decimal digit, ties to even.  (Python
rounds the `float` value; the model rounds the exact rational.) -/
def pyRound1 (q : ℚ) : ℚ := (roundHalfEven (q * 10) : ℚ) / 10

/-- `max(scores)` on a non-empty list (the empty case never runs). -/
def pyMax (l : List ℚ) : ℚ :=
  match l with
  | [] => 0
  | h :: t => t.foldl max h

/-- `max(set(subjects), key=subjects.count)`: a subject of maximal count.
Python iterates the set in unspecified order; the model scans the distinct
subjects in first-occurrence order, keeping the first maximum. -/
def favoriteSubjectOf (subjects : List String) : String :=
  match subjects.dedup with
  | [] => "None"
  | h :: t =>
    t.foldl (fun best s => if subjects.count s > subjects.count best then s else best) h

/-- `SessionManager.get_user_stats` (src/utils/session_manager.py:106). -/
def get_user_stats (st : SessionState) : UserStats :=
  let history := get_user_quiz_history st
  if history.isEmpty then
    { total_quizzes := 0
      average_score := 0
      best_score := 0
      favorite_subject := "None"
      improvement_trend := "No data" }
  else
    let total_quizzes := history.length
    let scores := history.map (fun quiz => quiz.score)
    let average_score := scores.sum / (total_quizzes : ℚ)
    let best_score := pyMax scores
    let subjects := history.map (fun quiz => quiz.subject)
    let favorite_subject := favoriteSubjectOf subjects
    let improvement_trend :=
      if total_quizzes ≥ 6 then
        let early_avg := (scores.take 3).sum / 3
        let recent_avg := (scores.drop (scores.length - 3)).sum / 3
        if recent_avg > early_avg + 5 then "Improving"
        else if recent_avg < early_avg - 5 then "Declining"
        else "Stable"
      else "Not enough data"
    { total_quizzes := total_quizzes
      average_score := pyRound1 average_score
      best_score := pyRound1 best_score
      favorite_subject := favorite_subject
      improvement_trend := improvement_trend }

/-- The `scores` list of `get_user_stats`. -/
def scoresOf (st : SessionState) : List ℚ :=
  (get_user_quiz_history st).map (fun quiz => quiz.score)

/-- `sum(scores[:3]) / 3` — the mean of the first three scores. -/
def earlyAvg (st : SessionState) : ℚ := ((scoresOf st).take 3).sum / 3

/-- `sum(scores[-3:]) / 3` — the mean of the last three scores. -/
def recentAvg (st : SessionState) : ℚ :=
  ((scoresOf st).drop ((scoresOf st).length - 3)).sum / 3

/-- A sample history record carrying a given score. -/
def mkRecord (s : ℚ) : QuizRecord :=
  { timestamp := "t"
    subject := "Programming Fundamentals"
    difficulty := "Easy"
    total_questions := 1
    correct_answers := 1
    score := s
    performance_level := "Poor"
    detailed_results := [] }

/-- A sample logged-in session whose user took six quizzes: three scores
of 50 followed by three scores of 90. -/
def histState : SessionState :=
  { authenticated := true
    current_user := some "alice"
    users := [("alice", { email := "a@b.c", password := "secret123", created_at := "t" })]
    quiz_history := [("alice",
      [mkRecord 50, mkRecord 50, mkRecord 50, mkRecord 90, mkRecord 90, mkRecord 90])] }

/-- A quiz whose single question has the empty string as its
`correct_answer` — legal for `evaluate_quiz_answers`, which never
validates its input. -/
def emptyCorrectQuiz : Quiz :=
  { subject := "S"
    difficulty := "Easy"
    total_questions := 1
    questions := [{ id := 1
                    question := "q"
                    options := [("A", "a"), ("B", "b"), ("C", "c"), ("D", "d")]
                    correct_answer := ""
                    explanation := "e"
                    topic := "t" }] }

/-! ### Shared helper lemmas -/

/-- Pointwise description of the `is_correct` flag a scored question carries. -/
lemma isCorrect_scoreQuestion (ua : List (PyKey × String)) :
    ((fun r : DetailedResult => r.is_correct) ∘ scoreQuestion ua) =
      (fun q : Question =>
        lookupAnswer ua (PyKey.pstr (toString q.id)) == q.correct_answer) := by
  funext q; simp [scoreQuestion]

/-- The `if/elif` threshold chain of `evaluate_quiz_answers`, characterized
as five interval conditions on the score. -/
lemma perfLevel_iff (s : ℚ) (pl : String)
    (hpl : pl = (if s ≥ 90 then "Excellent" else if s ≥ 80 then "Good"
      else if s ≥ 70 then "Satisfactory" else if s ≥ 60 then "Needs Improvement"
      else "Poor")) :
    (pl = "Excellent" ↔ 90 ≤ s) ∧
    (pl = "Good" ↔ 80 ≤ s ∧ s < 90) ∧
    (pl = "Satisfactory" ↔ 70 ≤ s ∧ s < 80) ∧
    (pl = "Needs Improvement" ↔ 60 ≤ s ∧ s < 70) ∧
    (pl = "Poor" ↔ s < 60) := by
  split_ifs at hpl with h1 h2 h3 h4 <;> subst hpl <;>
    refine ⟨?_, ?_, ?_, ?_, ?_⟩ <;> simp +decide <;>
    first
      | linarith
      | (intro ha; linarith)
      | (refine ⟨?_, ?_⟩ <;> linarith)

/-- The `performance_level` field is the threshold chain applied to the
`score_percentage` field. -/
lemma performance_level_eq (quiz : Quiz) (ua : List (PyKey × String)) :
    (evaluate_quiz_answers quiz ua).performance_level =
      (if (evaluate_quiz_answers quiz ua).score_percentage ≥ 90 then "Excellent"
       else if (evaluate_quiz_answers quiz ua).score_percentage ≥ 80 then "Good"
       else if (evaluate_quiz_answers quiz ua).score_percentage ≥ 70 then "Satisfactory"
       else if (evaluate_quiz_answers quiz ua).score_percentage ≥ 60 then "Needs Improvement"
       else "Poor") := by
  simp only [evaluate_quiz_answers, apply_ite Prod.fst]

/-- A successful association-list lookup returns one of the stored values. -/
lemma lookup_mem {α β : Type} [BEq α] (k : α) (l : List (α × β)) (v : β)
    (h : l.lookup k = some v) : v ∈ l.map Prod.snd := by
  induction l with
  | nil => simp [List.lookup] at h
  | cons p t ih =>
    obtain ⟨a, b⟩ := p
    rw [List.lookup] at h
    cases hab : (k == a) with
    | true => rw [hab] at h; simp only [Option.some.injEq] at h; simp [h]
    | false =>
      rw [hab] at h
      simp only [List.map_cons, List.mem_cons]
      exact Or.inr (ih h)

/-- Every question stored in the `enhanced_questions` bank has exactly
four options and its correct answer among the option labels. -/
lemma bank_lists_ok : ∀ qs ∈ enhanced_questions.map Prod.snd,
    ∀ l ∈ qs.map Prod.snd, ∀ bq ∈ l,
      bq.options.length = 4 ∧ bq.correct_answer ∈ bq.options.map Prod.fst := by
  decide

/-- Any list the bank lookup returns consists of well-formed questions. -/
lemma bankLookup_ok (s d : String) (qs : List BankQuestion)
    (h : bankLookup s d = some qs) :
    ∀ bq ∈ qs, bq.options.length = 4 ∧ bq.correct_answer ∈ bq.options.map Prod.fst := by
  rw [bankLookup] at h
  cases hm : enhanced_questions.lookup s with
  | none => rw [hm] at h; exact absurd h (by simp)
  | some m =>
    rw [hm] at h
    exact bank_lists_ok m (lookup_mem s _ m hm) qs (lookup_mem d _ qs h)

/-- A question that passes the per-question checks of
`_validate_quiz_structure` is a dict with a four-entry `options` dict and
a `correct_answer` string among the option labels. -/
lemma validQuestion_spec (qv : JVal) (h : validQuestion qv = true) :
    ∃ qf opts ca, qv = JVal.jobj qf ∧
      lookupField qf "options" = some (JVal.jobj opts) ∧
      opts.length = 4 ∧
      lookupField qf "correct_answer" = some (JVal.jstr ca) ∧
      ca ∈ opts.map Prod.fst := by
  cases qv <;> simp only [validQuestion, Bool.false_eq_true] at h
  case jobj qf =>
  rw [Bool.and_eq_true] at h
  obtain ⟨-, h⟩ := h
  cases hop : lookupField qf "options" with
  | none => rw [hop] at h; cases h
  | some ov =>
    rw [hop] at h
    cases ov <;> try cases h
    case jobj opts =>
    rw [Bool.and_eq_true] at h
    obtain ⟨hlen, h⟩ := h
    cases hca : lookupField qf "correct_answer" with
    | none => rw [hca] at h; cases h
    | some cv =>
      rw [hca] at h
      cases cv <;> try cases h
      case jstr ca =>
      exact ⟨qf, opts, ca, rfl, hop, by simpa using hlen, hca, by simpa using h⟩

/-- The improvement-trend `if/elif` chain of `get_user_stats`,
characterized by the three interval conditions. -/
lemma trend_iff (r e : ℚ) (t : String)
    (ht : t = (if r > e + 5 then "Improving"
      else if r < e - 5 then "Declining" else "Stable")) :
    (t = "Improving" ↔ r > e + 5) ∧
    (t = "Declining" ↔ r < e - 5) ∧
    (t = "Stable" ↔ (¬ r > e + 5 ∧ ¬ r < e - 5)) := by
  split_ifs at ht with h1 h2 <;> subst ht <;>
    refine ⟨?_, ?_, ?_⟩ <;> simp +decide <;>
    first
      | linarith
      | (intro ha; linarith)
      | (refine ⟨?_, ?_⟩ <;> linarith)
      | (intro hx; exact hx.1 (by linarith))
      | (intro hx; exact hx.2 (by linarith))

/-! ### Claims -/

/-- **C1.** For every quiz whose question list is non-empty and every map
of user answers, `evaluate_quiz_answers` returns a result whose
`score_percentage` equals `(correct_answers / total_questions) * 100`,
where `total_questions` is the number of questions in the quiz and
`correct_answers` is the number of questions whose submitted answer label
(the lookup under the string form of the question id, defaulting to `""`)
equals the question's `correct_answer` label. -/
theorem evaluate_quiz_answers_score_formula (quiz : Quiz)
    (ua : List (PyKey × String)) (h : quiz.questions ≠ []) :
    (evaluate_quiz_answers quiz ua).score_percentage =
      (((quiz.questions.filter (fun q =>
          lookupAnswer ua (PyKey.pstr (toString q.id)) == q.correct_answer)).length : ℚ) /
        ((quiz.questions.length : ℚ))) * 100 ∧
    (evaluate_quiz_answers quiz ua).total_questions = quiz.questions.length ∧
    (evaluate_quiz_answers quiz ua).correct_answers =
      (quiz.questions.filter (fun q =>
        lookupAnswer ua (PyKey.pstr (toString q.id)) == q.correct_answer)).length := by
  refine ⟨?_, ?_, ?_⟩ <;>
    simp [evaluate_quiz_answers, List.filter_map, isCorrect_scoreQuestion]

/-- Witness for C1: a two-question quiz with one correct answer scores
`(1 / 2) * 100`. -/
theorem evaluate_quiz_answers_score_formula_witness :
    (generate_enhanced_quiz "Programming Fundamentals" "Easy" 2).questions ≠ [] ∧
    (evaluate_quiz_answers (generate_enhanced_quiz "Programming Fundamentals" "Easy" 2)
        [(PyKey.pstr "1", "B")]).score_percentage =
      ((((generate_enhanced_quiz "Programming Fundamentals" "Easy" 2).questions.filter
          (fun q => lookupAnswer [(PyKey.pstr "1", "B")] (PyKey.pstr (toString q.id)) ==
            q.correct_answer)).length : ℚ) /
        (((generate_enhanced_quiz "Programming Fundamentals" "Easy" 2).questions.length : ℚ))) *
        100 :=
  ⟨by decide, (evaluate_quiz_answers_score_formula _ _ (by decide)).1⟩

/-- **C2.** For every quiz with a non-empty question list and every answer
map, the `performance_level` returned by `evaluate_quiz_answers` is
determined from `score_percentage` by fixed thresholds: "Excellent" iff
score ≥ 90, "Good" iff 80 ≤ score < 90, "Satisfactory" iff
70 ≤ score < 80, "Needs Improvement" iff 60 ≤ score < 70, and "Poor" iff
score < 60. -/
theorem evaluate_quiz_answers_performance_thresholds (quiz : Quiz)
    (ua : List (PyKey × String)) (h : quiz.questions ≠ []) :
    ((evaluate_quiz_answers quiz ua).performance_level = "Excellent" ↔
      90 ≤ (evaluate_quiz_answers quiz ua).score_percentage) ∧
    ((evaluate_quiz_answers quiz ua).performance_level = "Good" ↔
      80 ≤ (evaluate_quiz_answers quiz ua).score_percentage ∧
      (evaluate_quiz_answers quiz ua).score_percentage < 90) ∧
    ((evaluate_quiz_answers quiz ua).performance_level = "Satisfactory" ↔
      70 ≤ (evaluate_quiz_answers quiz ua).score_percentage ∧
      (evaluate_quiz_answers quiz ua).score_percentage < 80) ∧
    ((evaluate_quiz_answers quiz ua).performance_level = "Needs Improvement" ↔
      60 ≤ (evaluate_quiz_answers quiz ua).score_percentage ∧
      (evaluate_quiz_answers quiz ua).score_percentage < 70) ∧
    ((evaluate_quiz_answers quiz ua).performance_level = "Poor" ↔
      (evaluate_quiz_answers quiz ua).score_percentage < 60) := by
  rw [performance_level_eq quiz ua]
  exact perfLevel_iff _ _ rfl

/-- Witness for C2: with every answer correct the level is "Excellent"
and the score is at least 90. -/
theorem evaluate_quiz_answers_performance_thresholds_witness :
    (generate_enhanced_quiz "Machine Learning" "Easy" 2).questions ≠ [] ∧
    ((evaluate_quiz_answers (generate_enhanced_quiz "Machine Learning" "Easy" 2)
        [(PyKey.pstr "1", "B"), (PyKey.pstr "2", "B")]).performance_level = "Excellent" ↔
      90 ≤ (evaluate_quiz_answers (generate_enhanced_quiz "Machine Learning" "Easy" 2)
        [(PyKey.pstr "1", "B"), (PyKey.pstr "2", "B")]).score_percentage) :=
  ⟨by decide, (evaluate_quiz_answers_performance_thresholds _ _ (by decide)).1⟩

/-- **C3.** For every subject, difficulty, and requested count
`num_questions ≥ 1`, the fallback generator `_generate_enhanced_quiz`
returns a quiz whose `questions` list has length exactly `num_questions`
and whose `total_questions` field equals `num_questions` — including when
the subject or difficulty is absent from the built-in question bank and
when the bank holds fewer questions than requested. -/
theorem generate_enhanced_quiz_count (s d : String) (n : Nat) (h : 1 ≤ n) :
    (generate_enhanced_quiz s d n).questions.length = n ∧
    (generate_enhanced_quiz s d n).total_questions = n := by
  have hlen : (generate_enhanced_quiz s d n).questions.length = n := by
    simp only [generate_enhanced_quiz, List.length_append, List.length_mapIdx,
      List.length_take, List.length_map, List.length_range']
    omega
  have ht : (generate_enhanced_quiz s d n).total_questions =
      (generate_enhanced_quiz s d n).questions.length := rfl
  exact ⟨hlen, ht.trans hlen⟩

/-- Witness for C3: the "Machine Learning"/"Easy" bank holds only two
questions, yet a request for five yields five. -/
theorem generate_enhanced_quiz_count_witness :
    1 ≤ 5 ∧
    ((generate_enhanced_quiz "Machine Learning" "Easy" 5).questions.length = 5 ∧
     (generate_enhanced_quiz "Machine Learning" "Easy" 5).total_questions = 5) :=
  ⟨by decide, generate_enhanced_quiz_count "Machine Learning" "Easy" 5 (by decide)⟩

/-- **C4.** Structural invariant: `_validate_quiz_structure` returns
`True` only for quizzes in which each question has exactly four options
and a `correct_answer` label among those options' labels, and every quiz
produced by `_generate_enhanced_quiz` satisfies the same condition. -/
theorem quiz_structural_invariant :
    (∀ (quiz_data : JVal) (n : Nat) (fields : List (String × JVal)) (qs : List JVal),
      validate_quiz_structure quiz_data n = true →
      quiz_data = JVal.jobj fields →
      lookupField fields "questions" = some (JVal.jarr qs) →
      ∀ qv ∈ qs, ∃ qf opts ca, qv = JVal.jobj qf ∧
        lookupField qf "options" = some (JVal.jobj opts) ∧
        opts.length = 4 ∧
        lookupField qf "correct_answer" = some (JVal.jstr ca) ∧
        ca ∈ opts.map Prod.fst) ∧
    (∀ (s d : String) (n : Nat), ∀ q ∈ (generate_enhanced_quiz s d n).questions,
      q.options.length = 4 ∧ q.correct_answer ∈ q.options.map Prod.fst) := by
  constructor
  · intro quiz_data n fields qs hv hobj hq qv hqv
    subst hobj
    simp only [validate_quiz_structure, hq, Bool.and_eq_true] at hv
    obtain ⟨-, -, hall⟩ := hv
    exact validQuestion_spec qv (List.all_eq_true.mp hall qv hqv)
  · intro s d n q hq
    simp only [generate_enhanced_quiz, List.mem_append] at hq
    rcases hq with hq | hq
    · rw [List.mapIdx_eq_enum_map] at hq
      obtain ⟨⟨i, bq⟩, hmem, rfl⟩ := List.mem_map.mp hq
      have hbq : bq ∈ (match bankLookup s d with
          | some qs => qs
          | none => create_generic_questions s d n) :=
        List.mem_of_mem_take (List.getElem?_mem (List.mk_mem_enum_iff_getElem?.mp hmem))
      have hok : bq.options.length = 4 ∧
          bq.correct_answer ∈ bq.options.map Prod.fst := by
        cases hbl : bankLookup s d with
        | some qs =>
          rw [hbl] at hbq
          exact bankLookup_ok s d qs hbl bq hbq
        | none =>
          rw [hbl] at hbq
          simp only [create_generic_questions, List.mem_map] at hbq
          obtain ⟨j, -, rfl⟩ := hbq
          exact ⟨rfl, by simp⟩
      exact hok
    · obtain ⟨j, hj, rfl⟩ := List.mem_map.mp hq
      exact ⟨rfl, by simp [additionalQuestion]⟩

/-- Witness for C4: the hand-written sample quiz validates for one
question and its only question carries four options containing the
correct label; the generated "World History"/"Hard" quiz also satisfies
the invariant at its first question. -/
theorem quiz_structural_invariant_witness :
    (validate_quiz_structure sampleQuizJson 1 = true ∧
     (∃ qf opts ca, sampleQuestionJson = JVal.jobj qf ∧
        lookupField qf "options" = some (JVal.jobj opts) ∧
        opts.length = 4 ∧
        lookupField qf "correct_answer" = some (JVal.jstr ca) ∧
        ca ∈ opts.map Prod.fst)) ∧
    ((generate_enhanced_quiz "World History" "Hard" 1).questions.head! ∈
        (generate_enhanced_quiz "World History" "Hard" 1).questions ∧
     ((generate_enhanced_quiz "World History" "Hard" 1).questions.head!.options.length = 4 ∧
      (generate_enhanced_quiz "World History" "Hard" 1).questions.head!.correct_answer ∈
        (generate_enhanced_quiz "World History" "Hard" 1).questions.head!.options.map
          Prod.fst)) :=
  ⟨⟨rfl,
    quiz_structural_invariant.1 sampleQuizJson 1 sampleQuizFields [sampleQuestionJson]
      rfl rfl rfl sampleQuestionJson (List.mem_singleton.mpr rfl)⟩,
   ⟨List.head!_mem_self (by decide),
    quiz_structural_invariant.2 "World History" "Hard" 1 _
      (List.head!_mem_self (by decide))⟩⟩

/-- **C5.** For every input text (including texts with no opening brace,
no closing brace, unparseable JSON, or JSON failing structural
validation), `_parse_generated_quiz` does not raise: it returns either
the parsed quiz — exactly when the slice between the first `\x7b` and the
last `\x7d` parses and passes `_validate_quiz_structure` for the requested
count — or the static fallback quiz from `_generate_enhanced_quiz`. -/
theorem parse_generated_quiz_total (loads : List Char → Option JVal)
    (text : List Char) (s d : String) (n : Nat) :
    (parse_generated_quiz loads text s d n =
        quizToJVal (generate_enhanced_quiz s d n) ∨
      (∃ js j, extractJson text = some js ∧ loads js = some j ∧
        validate_quiz_structure j n = true ∧
        parse_generated_quiz loads text s d n = j)) ∧
    (∀ js j, extractJson text = some js → loads js = some j →
      validate_quiz_structure j n = true →
      parse_generated_quiz loads text s d n = j) := by
  constructor
  · cases hx : extractJson text with
    | none => exact Or.inl (by simp [parse_generated_quiz, hx])
    | some js =>
      cases hl : loads js with
      | none => exact Or.inl (by simp [parse_generated_quiz, hx, hl])
      | some j =>
        cases hv : validate_quiz_structure j n with
        | false => exact Or.inl (by simp [parse_generated_quiz, hx, hl, hv])
        | true =>
          exact Or.inr ⟨js, j, rfl, hl, hv,
            by simp [parse_generated_quiz, hx, hl, hv]⟩
  · intro js j hx hl hv
    simp [parse_generated_quiz, hx, hl, hv]

/-- Witness for C5: on the text "\x7b\x7d" with a parser that returns the
sample quiz JSON, parsing succeeds and the parsed quiz is returned. -/
theorem parse_generated_quiz_total_witness :
    extractJson ['\x7b', '\x7d'] = some ['\x7b', '\x7d'] ∧
    (fun _ : List Char => some sampleQuizJson) ['\x7b', '\x7d'] = some sampleQuizJson ∧
    validate_quiz_structure sampleQuizJson 1 = true ∧
    parse_generated_quiz (fun _ => some sampleQuizJson) ['\x7b', '\x7d']
      "Mathematics" "Easy" 1 = sampleQuizJson :=
  ⟨rfl, rfl, rfl,
   (parse_generated_quiz_total (fun _ => some sampleQuizJson) ['\x7b', '\x7d']
      "Mathematics" "Easy" 1).2 ['\x7b', '\x7d'] sampleQuizJson rfl rfl rfl⟩

/-- Replacing an existing key in place leaves it findable with the new
value. -/
lemma lookup_map_set {β : Type} (l : List (String × β)) (k : String) (v : β)
    (h : (l.lookup k).isSome) :
    (l.map (fun p => bif p.1 == k then (k, v) else p)).lookup k = some v := by
  induction l with
  | nil => simp [List.lookup] at h
  | cons p t ih =>
    obtain ⟨a, b⟩ := p
    by_cases hak : a = k
    · subst hak; simp [List.lookup]
    · have h1 : (a == k) = false := beq_eq_false_iff_ne.mpr hak
      have h2 : (k == a) = false := beq_eq_false_iff_ne.mpr (Ne.symm hak)
      simp only [List.lookup, h2] at h
      simp only [List.map_cons, h1, Bool.cond_false, List.lookup, h2]
      exact ih h

/-- Appending a fresh key makes it findable. -/
lemma lookup_append_of_none {β : Type} (l : List (String × β)) (k : String) (v : β)
    (h : l.lookup k = none) : (l ++ [(k, v)]).lookup k = some v := by
  induction l with
  | nil => simp [List.lookup]
  | cons p t ih =>
    obtain ⟨a, b⟩ := p
    simp only [List.cons_append, List.lookup] at h ⊢
    cases hak : (k == a) with
    | true => rw [hak] at h; exact absurd h (by simp)
    | false => rw [hak] at h; exact ih h

/-- After `d[k] = v`, looking up `k` yields `v`. -/
lemma lookup_dictSet {β : Type} (l : List (String × β)) (k : String) (v : β) :
    (dictSet l k v).lookup k = some v := by
  unfold dictSet
  split
  · exact lookup_map_set l k v (by assumption)
  · next hn => exact lookup_append_of_none l k v (Option.not_isSome_iff_eq_none.mp hn)

/-- **C6.** `register_user` fails (returns success flag `False`) when the
username is already registered or when the password is shorter than 6
characters; on every failure the `users` map and `quiz_history` map are
left unchanged; on success the user is added to the `users` map under the
username key and the user's quiz history is initialized to the empty
list. -/
theorem register_user_spec (st : SessionState) (u e p now : String) :
    (((st.users.lookup u).isSome ∨ p.length < 6) →
      (register_user st u e p now).1.1 = false) ∧
    ((register_user st u e p now).1.1 = false →
      (register_user st u e p now).2.users = st.users ∧
      (register_user st u e p now).2.quiz_history = st.quiz_history) ∧
    ((register_user st u e p now).1.1 = true →
      (register_user st u e p now).2.users.lookup u =
        some { email := e, password := p, created_at := now } ∧
      (register_user st u e p now).2.quiz_history.lookup u = some []) := by
  unfold register_user
  split_ifs with h1 h2 h3 h4 <;> simp_all [lookup_dictSet]

/-- Witness for C6: on a fresh state, a five-character password is
rejected leaving the maps unchanged, and a valid registration stores the
user with an empty history. -/
theorem register_user_spec_witness :
    ((emptyState.users.lookup "bob").isSome ∨ ("abc" : String).length < 6) ∧
    (register_user emptyState "bob" "b@c.d" "abc" "t").1.1 = false ∧
    (register_user emptyState "bob" "b@c.d" "abc" "t").2.users = emptyState.users ∧
    (register_user emptyState "bob" "b@c.d" "abc" "t").2.quiz_history =
      emptyState.quiz_history ∧
    (register_user emptyState "bob" "b@c.d" "abcdef" "t").1.1 = true ∧
    (register_user emptyState "bob" "b@c.d" "abcdef" "t").2.users.lookup "bob" =
      some { email := "b@c.d", password := "abcdef", created_at := "t" } ∧
    (register_user emptyState "bob" "b@c.d" "abcdef" "t").2.quiz_history.lookup "bob" =
      some [] := by
  have h := register_user_spec emptyState "bob" "b@c.d" "abc" "t"
  have hc : ((emptyState.users.lookup "bob").isSome ∨ ("abc" : String).length < 6) :=
    Or.inr (by decide)
  have hf := h.1 hc
  have h2 := register_user_spec emptyState "bob" "b@c.d" "abcdef" "t"
  have hs := h2.2.2 (by decide)
  exact ⟨hc, hf, (h.2.1 hf).1, (h.2.1 hf).2, by decide, hs.1, hs.2⟩

/-- **C7.** `login_user` returns failure when the username is not
registered or when the supplied password differs from the stored one, and
in both failure cases the `authenticated` flag and `current_user` are
left unchanged; it succeeds exactly when the username is registered with
a matching password, in which case `authenticated` becomes `True` and
`current_user` becomes the username. -/
theorem login_user_spec (st : SessionState) (u p : String) :
    ((login_user st u p).1.1 = true ↔
      ∃ ud, st.users.lookup u = some ud ∧ ud.password = p) ∧
    ((login_user st u p).1.1 = false →
      (login_user st u p).2.authenticated = st.authenticated ∧
      (login_user st u p).2.current_user = st.current_user) ∧
    ((login_user st u p).1.1 = true →
      (login_user st u p).2.authenticated = true ∧
      (login_user st u p).2.current_user = some u) := by
  unfold login_user
  cases hl : st.users.lookup u with
  | none => simp
  | some ud =>
    by_cases hp : ud.password = p
    · simp [hp]
    · simp [hp]

/-- Witness for C7: the stored user logs in successfully with the stored
password and is rejected, state untouched, with a wrong one. -/
theorem login_user_spec_witness :
    (login_user regState "alice" "secret123").1.1 = true ∧
    (login_user regState "alice" "secret123").2.authenticated = true ∧
    (login_user regState "alice" "secret123").2.current_user = some "alice" ∧
    (login_user regState "alice" "wrong").1.1 = false ∧
    (login_user regState "alice" "wrong").2.authenticated = regState.authenticated ∧
    (login_user regState "alice" "wrong").2.current_user = regState.current_user := by
  have h := login_user_spec regState "alice" "secret123"
  have ht : (login_user regState "alice" "secret123").1.1 = true :=
    h.1.mpr ⟨{ email := "a@b.c", password := "secret123", created_at := "t" }, rfl, rfl⟩
  have h2 := login_user_spec regState "alice" "wrong"
  have hf : (login_user regState "alice" "wrong").1.1 = false := by decide
  exact ⟨ht, (h.2.2 ht).1, (h.2.2 ht).2, hf, (h2.2.1 hf).1, (h2.2.1 hf).2⟩

/-- **C9.** `register_user` also rejects usernames shorter than 3
characters and emails without `'@'`; a registration succeeds exactly when
the username is new and at least 3 characters, the password is at least 6
characters, and the email contains `'@'`; the duplicate-username check
runs first, so a duplicate username with a short password reports the
duplicate error. -/
theorem register_user_validation (st : SessionState) (u e p now : String) :
    ((register_user st u e p now).1.1 = true ↔
      (st.users.lookup u = none ∧ 3 ≤ u.length ∧ 6 ≤ p.length ∧
        (pyInStr '@' e) = true)) ∧
    ((st.users.lookup u).isSome →
      (register_user st u e p now).1 = (false, "Username already exists")) := by
  unfold register_user
  split_ifs with h1 h2 h3 h4 <;>
    simp_all [Option.not_isSome_iff_eq_none] <;>
    (intro a b hab hua; subst hua; exact h1 b hab)

/-- Witness for C9: registering "alice" again with a two-character
password reports the duplicate-username error, and a fully valid fresh
registration succeeds. -/
theorem register_user_validation_witness :
    (regState.users.lookup "alice").isSome ∧
    (register_user regState "alice" "x@y.z" "ab" "t").1 =
      (false, "Username already exists") ∧
    (register_user emptyState "carol" "c@d.e" "longpass" "t").1.1 = true := by
  have h := register_user_validation regState "alice" "x@y.z" "ab" "t"
  have h2 := register_user_validation emptyState "carol" "c@d.e" "longpass" "t"
  exact ⟨by decide, h.2 (by decide), h2.1.mpr ⟨rfl, by decide, by decide, by decide⟩⟩

/-- Counterexample to C8 as stated: on a quiz whose question has the
empty string as `correct_answer`, a missing answer is looked up as `""`
and `'' == ''` makes it count as **correct**, while the claim says every
missing answer is counted incorrect. -/
theorem missing_answer_counted_correct :
    emptyCorrectQuiz.questions ≠ [] ∧
    ([] : List (PyKey × String)).lookup (PyKey.pstr (toString (1 : Int))) = none ∧
    (evaluate_quiz_answers emptyCorrectQuiz []).detailed_results.map
      (fun r => r.user_answer) = [""] ∧
    (evaluate_quiz_answers emptyCorrectQuiz []).detailed_results.map
      (fun r => r.is_correct) = [true] ∧
    (evaluate_quiz_answers emptyCorrectQuiz []).correct_answers = 1 :=
  ⟨by decide, rfl, rfl, rfl, rfl⟩

/-- **C8 (amended).** For every quiz with a non-empty question list,
`evaluate_quiz_answers` never fails on missing answers: a question whose
string-form id is absent from the user-answers map is scored with
`user_answer` equal to the empty string and — provided the question's
`correct_answer` is not itself the empty string — counted incorrect;
answers are looked up only under the string form of the question id, so
an answer keyed by an `int` never affects the result. -/
theorem evaluate_quiz_answers_missing_answers (quiz : Quiz)
    (ua : List (PyKey × String)) (h : quiz.questions ≠ []) :
    (∀ (i : Nat) (hi : i < quiz.questions.length)
        (hi2 : i < (evaluate_quiz_answers quiz ua).detailed_results.length),
      ua.lookup (PyKey.pstr (toString (quiz.questions.get ⟨i, hi⟩).id)) = none →
      ((evaluate_quiz_answers quiz ua).detailed_results.get ⟨i, hi2⟩).user_answer = "" ∧
      ((quiz.questions.get ⟨i, hi⟩).correct_answer ≠ "" →
        ((evaluate_quiz_answers quiz ua).detailed_results.get ⟨i, hi2⟩).is_correct =
          false)) ∧
    (∀ (k : Int) (v : String),
      evaluate_quiz_answers quiz ((PyKey.pint k, v) :: ua) =
        evaluate_quiz_answers quiz ua) := by
  constructor
  · intro i hi hi2 hnone
    simp only [List.get_eq_getElem] at hnone
    have hg : (evaluate_quiz_answers quiz ua).detailed_results.get ⟨i, hi2⟩ =
        scoreQuestion ua (quiz.questions.get ⟨i, hi⟩) := by
      simp [evaluate_quiz_answers, List.get_eq_getElem, List.getElem_map]
    rw [hg]
    refine ⟨?_, fun hne => ?_⟩
    · simp [scoreQuestion, lookupAnswer, hnone, List.get_eq_getElem]
    · simp only [List.get_eq_getElem] at hne
      simp [scoreQuestion, lookupAnswer, hnone, List.get_eq_getElem]
      exact fun hh => hne hh.symm
  · intro k v
    have hsq : scoreQuestion ((PyKey.pint k, v) :: ua) = scoreQuestion ua := by
      funext q
      simp [scoreQuestion, lookupAnswer, List.lookup,
        show (PyKey.pstr (toString q.id) == PyKey.pint k) = false from
          beq_eq_false_iff_ne.mpr (fun hh => PyKey.noConfusion hh)]
    simp [evaluate_quiz_answers, hsq]

/-- Witness for the amended C8: the single generated question, left
unanswered, is scored with `user_answer = ""` and marked incorrect, and
an `int`-keyed answer changes nothing. -/
theorem evaluate_quiz_answers_missing_answers_witness :
    (generate_enhanced_quiz "Programming Fundamentals" "Easy" 1).questions ≠ [] ∧
    ([] : List (PyKey × String)).lookup
      (PyKey.pstr (toString ((generate_enhanced_quiz "Programming Fundamentals"
        "Easy" 1).questions.get ⟨0, by decide⟩).id)) = none ∧
    ((evaluate_quiz_answers (generate_enhanced_quiz "Programming Fundamentals" "Easy" 1)
        []).detailed_results.get ⟨0, by decide⟩).user_answer = "" ∧
    ((evaluate_quiz_answers (generate_enhanced_quiz "Programming Fundamentals" "Easy" 1)
        []).detailed_results.get ⟨0, by decide⟩).is_correct = false ∧
    evaluate_quiz_answers (generate_enhanced_quiz "Programming Fundamentals" "Easy" 1)
        [(PyKey.pint 0, "X")] =
      evaluate_quiz_answers (generate_enhanced_quiz "Programming Fundamentals" "Easy" 1)
        [] := by
  have h := evaluate_quiz_answers_missing_answers
    (generate_enhanced_quiz "Programming Fundamentals" "Easy" 1) [] (by decide)
  have h0 := h.1 0 (by decide) (by decide) rfl
  exact ⟨by decide, rfl, h0.1, h0.2 (by decide), h.2 0 "X"⟩

/-- **C10.** `get_user_stats` returns the fixed zero-valued record when
the current user's history is empty; for a non-empty history it returns
`improvement_trend` "Not enough data" when there are fewer than 6
attempts, and with 6 or more attempts returns "Improving" iff the mean of
the last 3 scores exceeds the mean of the first 3 by more than 5,
"Declining" iff it is lower by more than 5, and "Stable" otherwise. -/
theorem get_user_stats_spec (st : SessionState) :
    (get_user_quiz_history st = [] →
      get_user_stats st = ({
        total_quizzes := 0
        average_score := 0
        best_score := 0
        favorite_subject := "None"
        improvement_trend := "No data" } : UserStats)) ∧
    (get_user_quiz_history st ≠ [] → (get_user_quiz_history st).length < 6 →
      (get_user_stats st).improvement_trend = "Not enough data") ∧
    (6 ≤ (get_user_quiz_history st).length →
      (((get_user_stats st).improvement_trend = "Improving" ↔
        recentAvg st > earlyAvg st + 5) ∧
       ((get_user_stats st).improvement_trend = "Declining" ↔
        recentAvg st < earlyAvg st - 5) ∧
       ((get_user_stats st).improvement_trend = "Stable" ↔
        (¬ recentAvg st > earlyAvg st + 5 ∧ ¬ recentAvg st < earlyAvg st - 5)))) := by
  refine ⟨fun h => by simp [get_user_stats, h], fun h1 h2 => ?_, fun h6 => ?_⟩
  · have hie : (get_user_quiz_history st).isEmpty = false :=
      Bool.eq_false_iff.mpr (fun hab => h1 (List.isEmpty_iff.mp hab))
    simp only [get_user_stats, hie, Bool.false_eq_true, if_false]
    simp [show ¬ 6 ≤ (get_user_quiz_history st).length from by omega]
  · have h1 : get_user_quiz_history st ≠ [] := by
      intro hh; rw [hh] at h6; simp at h6
    have hie : (get_user_quiz_history st).isEmpty = false :=
      Bool.eq_false_iff.mpr (fun hab => h1 (List.isEmpty_iff.mp hab))
    have htr : (get_user_stats st).improvement_trend =
        (if recentAvg st > earlyAvg st + 5 then "Improving"
         else if recentAvg st < earlyAvg st - 5 then "Declining"
         else "Stable") := by
      simp only [get_user_stats, hie, Bool.false_eq_true, if_false, h6, if_true,
        recentAvg, earlyAvg, scoresOf]
    rw [htr]
    exact trend_iff _ _ _ rfl

/-- Witness for C10: an empty history yields the zero record, and the
six-quiz history (50, 50, 50, 90, 90, 90) is long enough for the trend
characterization. -/
theorem get_user_stats_spec_witness :
    get_user_quiz_history emptyState = [] ∧
    get_user_stats emptyState = ({
      total_quizzes := 0
      average_score := 0
      best_score := 0
      favorite_subject := "None"
      improvement_trend := "No data" } : UserStats) ∧
    6 ≤ (get_user_quiz_history histState).length ∧
    ((get_user_stats histState).improvement_trend = "Improving" ↔
      recentAvg histState > earlyAvg histState + 5) :=
  ⟨rfl, (get_user_stats_spec emptyState).1 rfl, by decide,
   ((get_user_stats_spec histState).2.2 (by decide)).1⟩

end EduTutor
